import Mathlib

/-!
Shallow embedding of `src/berserk/clients/tournaments.py` (the `Tournaments`
client of the lichess-berserk fork).

Each Python method of the `Tournaments` class builds a URL path and a
parameter / payload dictionary from its arguments and issues exactly one call
to the transport collaborator `self._r` (`get` or `post`).  We embed every
method as a Lean function producing the `Request` it issues; a second layer
models executing the request against an abstract transport (an arbitrary
function from requests to `Except`-results), and a third layer models the
Python generator protocol for the five streaming methods (which use
`yield from`, so their bodies are suspended until the first pull).
-/

set_option autoImplicit false

namespace Berserk

/-- A Python value as it appears in a params / payload dictionary of
`tournaments.py`: `None`, a `bool`, an `int`, a `float` (carried opaquely,
no arithmetic is performed on it; we use `Rat` as the carrier), or a `str`. -/
inductive PyVal where
  | none
  | bool (b : Bool)
  | int (n : Int)
  | float (q : Rat)
  | str (s : String)
  deriving DecidableEq, Repr

/-- Embeds `Option String` argument placed into a dict: `None` stays `None`. -/
def PyVal.ofStr : Option String → PyVal
  | Option.none => PyVal.none
  | Option.some s => PyVal.str s

/-- Embeds `Option Int` argument placed into a dict: `None` stays `None`. -/
def PyVal.ofInt : Option Int → PyVal
  | Option.none => PyVal.none
  | Option.some n => PyVal.int n

/-- Embeds `Option Bool` argument placed into a dict: `None` stays `None`. -/
def PyVal.ofBool : Option Bool → PyVal
  | Option.none => PyVal.none
  | Option.some b => PyVal.bool b

/-- A Python dict used as query params or request body, in insertion order. -/
abbrev Params := List (String × PyVal)

/-- HTTP verb used by `self._r.get` / `self._r.post`. -/
inductive Verb where
  | get
  | post
  deriving DecidableEq, Repr

/-- The `fmt` handler passed to the transport: absent (plain JSON), `NDJSON`,
`NDJSON_LIST`, or `PGN` (from `berserk.formats`). -/
inductive Fmt where
  | json
  | ndjson
  | ndjsonList
  | pgn
  deriving DecidableEq, Repr

/-- The converter hook passed to the transport (`models.Tournament.convert`,
`models.Tournament.convert_values`, or `models.Game.convert`). -/
inductive Converter where
  | tournamentConvert
  | tournamentConvertValues
  | gameConvert
  deriving DecidableEq, Repr

/-- One call to the transport collaborator `self._r`: verb, path, query
params (`params=`), form body (`payload=`), JSON body (`json=`), format
handler, streaming flag, and converter hook. -/
structure Request where
  verb : Verb
  path : String
  params : Option Params := Option.none
  payload : Option Params := Option.none
  jsonBody : Option Params := Option.none
  fmt : Fmt := Fmt.json
  stream : Bool := false
  converter : Option Converter := Option.none
  deriving DecidableEq, Repr

/-! Section: paths.
Each `*_path` transliterates the f-string of the corresponding method. -/

def get_path : String := "/api/tournament"

def get_tournament_arena_path (tournament_id : String) (page : Int) : String :=
  "/api/tournament/" ++ tournament_id ++ "?page=" ++ toString page

def get_tournament_swiss_path (tournament_id : String) : String :=
  "/api/swiss/" ++ tournament_id

def join_arena_path (tournament_id : String) : String :=
  "/api/tournament/" ++ tournament_id ++ "/join"

def join_swiss_path (tournament_id : String) : String :=
  "/api/swiss/" ++ tournament_id ++ "/join"

def get_team_standings_path (tournament_id : String) : String :=
  "/api/tournament/" ++ tournament_id ++ "/teams"

def update_team_battle_path (tournament_id : String) : String :=
  "/api/tournament/team-battle/" ++ tournament_id

def create_arena_path : String := "/api/tournament"

def create_swiss_path (teamId : String) : String :=
  "/api/swiss/new/" ++ teamId

def export_arena_games_path (tid : String) : String :=
  "/api/tournament/" ++ tid ++ "/games"

def export_swiss_games_path (tid : String) : String :=
  "/api/swiss/" ++ tid ++ "/games"

def export_trf_path (tournament_id : String) : String :=
  "/swiss/" ++ tournament_id ++ "/.trf"

def tournaments_by_user_path (username : String) : String :=
  "/api/user/" ++ username ++ "/tournament/created"

def arenas_by_team_path (teamId : String) : String :=
  "/api/team/" ++ teamId ++ "/arena"

def swiss_by_team_path (teamId : String) : String :=
  "/api/team/" ++ teamId ++ "/swiss"

def schedule_next_round_path (tournament_id : String) : String :=
  "/api/swiss/" ++ tournament_id ++ "/schedule-next-round"

def stream_results_arena_path (tournament_id : String) : String :=
  "/api/tournament/" ++ tournament_id ++ "/results"

def stream_results_swiss_path (tournament_id : String) : String :=
  "/api/swiss/" ++ tournament_id ++ "/results"

def stream_by_creator_path (username : String) : String :=
  "/api/user/" ++ username ++ "/tournament/created"

def terminate_arena_path (tournament_id : String) : String :=
  "/api/tournament/" ++ tournament_id ++ "/terminate"

def terminate_swiss_path (tournament_id : String) : String :=
  "/api/swiss/" ++ tournament_id ++ "/terminate"

def update_arena_path (tournament_id : String) : String :=
  "/api/tournament/" ++ tournament_id

def update_swiss_path (tournament_id : String) : String :=
  "/api/swiss/" ++ tournament_id ++ "/edit"

def withdraw_arena_path (tournament_id : String) : String :=
  "/api/tournament/" ++ tournament_id ++ "/withdraw"

def withdraw_swiss_path (tournament_id : String) : String :=
  "/api/swiss/" ++ tournament_id ++ "/withdraw"

/-! Section: request builders.
One per method; full dicts in source order, `None` arguments passing through
as `PyVal.none` exactly as the Python dict literals do. -/

/-- Embeds `Tournaments.get`. -/
def get_req : Request :=
  { verb := Verb.get, path := get_path,
    converter := Option.some Converter.tournamentConvertValues }

/-- Embeds `Tournaments.get_tournament_arena`. -/
def get_tournament_arena_req (tournament_id : String) (page : Int) : Request :=
  { verb := Verb.get, path := get_tournament_arena_path tournament_id page,
    converter := Option.some Converter.tournamentConvert }

/-- Embeds `Tournaments.get_tournament_swiss`. -/
def get_tournament_swiss_req (tournament_id : String) : Request :=
  { verb := Verb.get, path := get_tournament_swiss_path tournament_id,
    converter := Option.some Converter.tournamentConvert }

/-- The `params` dict of `Tournaments.join_arena`.  Note the source puts the
plain `bool` argument `should_pair_immediately` (default `False`) straight
into the dict under key `pairMeAsap`. -/
def join_arena_params (password team : Option String)
    (should_pair_immediately : Bool) : Params :=
  [("password", PyVal.ofStr password),
   ("team", PyVal.ofStr team),
   ("pairMeAsap", PyVal.bool should_pair_immediately)]

/-- Embeds `Tournaments.join_arena`. -/
def join_arena_req (tournament_id : String) (password team : Option String)
    (should_pair_immediately : Bool) : Request :=
  { verb := Verb.post, path := join_arena_path tournament_id,
    params := Option.some (join_arena_params password team should_pair_immediately),
    converter := Option.some Converter.tournamentConvert }

/-- The `payload` dict of `Tournaments.join_swiss`. -/
def join_swiss_payload (password : Option String) : Params :=
  [("password", PyVal.ofStr password)]

/-- Embeds `Tournaments.join_swiss`. -/
def join_swiss_req (tournament_id : String) (password : Option String) : Request :=
  { verb := Verb.post, path := join_swiss_path tournament_id,
    payload := Option.some (join_swiss_payload password),
    converter := Option.some Converter.tournamentConvert }

/-- Embeds `Tournaments.get_team_standings`: bare GET, no params, no converter. -/
def get_team_standings_req (tournament_id : String) : Request :=
  { verb := Verb.get, path := get_team_standings_path tournament_id }

/-- The `params` dict of `Tournaments.update_team_battle`. -/
def update_team_battle_params (team_ids : Option String)
    (team_leader_count_per_team : Option Int) : Params :=
  [("teams", PyVal.ofStr team_ids),
   ("nbLeaders", PyVal.ofInt team_leader_count_per_team)]

/-- Embeds `Tournaments.update_team_battle`. -/
def update_team_battle_req (tournament_id : String) (team_ids : Option String)
    (team_leader_count_per_team : Option Int) : Request :=
  { verb := Verb.post, path := update_team_battle_path tournament_id,
    params := Option.some (update_team_battle_params team_ids team_leader_count_per_team) }

/-- The `payload` dict of `Tournaments.create_arena`, in source order. -/
def create_arena_payload (clockTime clockIncrement minutes : Int)
    (name : Option String) (wait_minutes startDate : Option Int)
    (variant : Option String) (rated : Option Bool) (position : Option String)
    (berserkable streakable hasChat : Option Bool)
    (description password teamBattleByTeam teamId : Option String)
    (minRating maxRating nbRatedGame : Option Int) : Params :=
  [("name", PyVal.ofStr name),
   ("clockTime", PyVal.int clockTime),
   ("clockIncrement", PyVal.int clockIncrement),
   ("minutes", PyVal.int minutes),
   ("waitMinutes", PyVal.ofInt wait_minutes),
   ("startDate", PyVal.ofInt startDate),
   ("variant", PyVal.ofStr variant),
   ("rated", PyVal.ofBool rated),
   ("position", PyVal.ofStr position),
   ("berserkable", PyVal.ofBool berserkable),
   ("streakable", PyVal.ofBool streakable),
   ("hasChat", PyVal.ofBool hasChat),
   ("description", PyVal.ofStr description),
   ("password", PyVal.ofStr password),
   ("teamBattleByTeam", PyVal.ofStr teamBattleByTeam),
   ("conditions.teamMember.teamId", PyVal.ofStr teamId),
   ("conditions.minRating.rating", PyVal.ofInt minRating),
   ("conditions.maxRating.rating", PyVal.ofInt maxRating),
   ("conditions.nbRatedGame.nb", PyVal.ofInt nbRatedGame)]

/-- Embeds `Tournaments.create_arena`: POST with `json=` body. -/
def create_arena_req (clockTime clockIncrement minutes : Int)
    (name : Option String) (wait_minutes startDate : Option Int)
    (variant : Option String) (rated : Option Bool) (position : Option String)
    (berserkable streakable hasChat : Option Bool)
    (description password teamBattleByTeam teamId : Option String)
    (minRating maxRating nbRatedGame : Option Int) : Request :=
  { verb := Verb.post, path := create_arena_path,
    jsonBody := Option.some (create_arena_payload clockTime clockIncrement minutes
      name wait_minutes startDate variant rated position berserkable streakable
      hasChat description password teamBattleByTeam teamId minRating maxRating
      nbRatedGame),
    converter := Option.some Converter.tournamentConvert }

/-- The `payload` dict of `Tournaments.create_swiss`, in source order. -/
def create_swiss_payload (clockLimit clockIncrement nbRounds : Int)
    (name : Option String) (startsAt roundInterval : Option Int)
    (variant description : Option String) (rated : Option Bool)
    (chatFor : Option Int) : Params :=
  [("name", PyVal.ofStr name),
   ("clock.limit", PyVal.int clockLimit),
   ("clock.increment", PyVal.int clockIncrement),
   ("nbRounds", PyVal.int nbRounds),
   ("startsAt", PyVal.ofInt startsAt),
   ("roundInterval", PyVal.ofInt roundInterval),
   ("variant", PyVal.ofStr variant),
   ("description", PyVal.ofStr description),
   ("rated", PyVal.ofBool rated),
   ("chatFor", PyVal.ofInt chatFor)]

/-- Embeds `Tournaments.create_swiss`: POST with `json=` body against
`/api/swiss/new/{teamId}`. -/
def create_swiss_req (teamId : String) (clockLimit clockIncrement nbRounds : Int)
    (name : Option String) (startsAt roundInterval : Option Int)
    (variant description : Option String) (rated : Option Bool)
    (chatFor : Option Int) : Request :=
  { verb := Verb.post, path := create_swiss_path teamId,
    jsonBody := Option.some (create_swiss_payload clockLimit clockIncrement nbRounds
      name startsAt roundInterval variant description rated chatFor),
    converter := Option.some Converter.tournamentConvert }

/-- Modelled from the spec: `FmtClient._use_pgn` lives in the base module
(`clients/base.py`), which is not part of the given source.  The spec states
the PGN-vs-JSON mode is "resolved once per export call from an explicit flag
or a client-wide default", and that with the flag absent a default-configured
client requests JSON; so an explicit `as_pgn` wins and otherwise the
client-wide `pgn_as_default` applies (`false`, i.e. JSON, for a
default-configured client). -/
def use_pgn (pgn_as_default : Bool) (as_pgn : Option Bool) : Bool :=
  as_pgn.getD pgn_as_default

/-- The `params` dict of `Tournaments.export_arena_games`. -/
def export_arena_games_params (moves tags clocks evals opening : Bool) : Params :=
  [("moves", PyVal.bool moves),
   ("tags", PyVal.bool tags),
   ("clocks", PyVal.bool clocks),
   ("evals", PyVal.bool evals),
   ("opening", PyVal.bool opening)]

/-- Embeds `Tournaments.export_arena_games`: streaming GET, PGN format without a
converter when `_use_pgn` resolves to PGN, else NDJSON with
`models.Game.convert`. -/
def export_arena_games_req (pgn_as_default : Bool) (tid : String)
    (as_pgn : Option Bool) (moves tags clocks evals opening : Bool) : Request :=
  if use_pgn pgn_as_default as_pgn then
    { verb := Verb.get, path := export_arena_games_path tid,
      params := Option.some (export_arena_games_params moves tags clocks evals opening),
      fmt := Fmt.pgn, stream := true }
  else
    { verb := Verb.get, path := export_arena_games_path tid,
      params := Option.some (export_arena_games_params moves tags clocks evals opening),
      fmt := Fmt.ndjson, stream := true,
      converter := Option.some Converter.gameConvert }

/-- The `params` dict of `Tournaments.export_swiss_games`.  The source
(line 310) writes the first key as `"moves:"` — with a stray colon. -/
def export_swiss_games_params (moves pgnInJson tags clocks evals opening : Bool) :
    Params :=
  [("moves:", PyVal.bool moves),
   ("pgnInJson", PyVal.bool pgnInJson),
   ("tags", PyVal.bool tags),
   ("clocks", PyVal.bool clocks),
   ("evals", PyVal.bool evals),
   ("opening", PyVal.bool opening)]

/-- Embeds `Tournaments.export_swiss_games`. -/
def export_swiss_games_req (pgn_as_default : Bool) (tid : String)
    (as_pgn : Option Bool) (moves pgnInJson tags clocks evals opening : Bool) :
    Request :=
  if use_pgn pgn_as_default as_pgn then
    { verb := Verb.get, path := export_swiss_games_path tid,
      params := Option.some (export_swiss_games_params moves pgnInJson tags clocks evals opening),
      fmt := Fmt.pgn, stream := true }
  else
    { verb := Verb.get, path := export_swiss_games_path tid,
      params := Option.some (export_swiss_games_params moves pgnInJson tags clocks evals opening),
      fmt := Fmt.ndjson, stream := true,
      converter := Option.some Converter.gameConvert }

/-- Embeds `Tournaments.export_trf`: bare GET. -/
def export_trf_req (tournament_id : String) : Request :=
  { verb := Verb.get, path := export_trf_path tournament_id }

/-- Embeds `Tournaments.tournaments_by_user`. -/
def tournaments_by_user_req (username : String) (nb : Option Int) : Request :=
  { verb := Verb.get, path := tournaments_by_user_path username,
    params := Option.some [("nb", PyVal.ofInt nb)],
    fmt := Fmt.ndjsonList, converter := Option.some Converter.gameConvert }

/-- Embeds `Tournaments.arenas_by_team`. -/
def arenas_by_team_req (teamId : String) (maxT : Option Int) : Request :=
  { verb := Verb.get, path := arenas_by_team_path teamId,
    params := Option.some [("max", PyVal.ofInt maxT)],
    fmt := Fmt.ndjsonList, converter := Option.some Converter.gameConvert }

/-- Embeds `Tournaments.swiss_by_team`. -/
def swiss_by_team_req (teamId : String) (maxT : Option Int) : Request :=
  { verb := Verb.get, path := swiss_by_team_path teamId,
    params := Option.some [("max", PyVal.ofInt maxT)],
    fmt := Fmt.ndjsonList, converter := Option.some Converter.gameConvert }

/-- Embeds `Tournaments.schedule_next_round`: POST with form `payload`. -/
def schedule_next_round_req (tournament_id : String)
    (start_timestamp_milliseconds : Int) : Request :=
  { verb := Verb.post, path := schedule_next_round_path tournament_id,
    payload := Option.some [("date", PyVal.int start_timestamp_milliseconds)] }

/-- Embeds `Tournaments.stream_results_arena`: streaming GET, default format. -/
def stream_results_arena_req (tournament_id : String) (limit : Option Int) : Request :=
  { verb := Verb.get, path := stream_results_arena_path tournament_id,
    params := Option.some [("nb", PyVal.ofInt limit)], stream := true }

/-- Embeds `Tournaments.stream_results_swiss`: streaming GET, default format. -/
def stream_results_swiss_req (tournament_id : String) (limit : Option Int) : Request :=
  { verb := Verb.get, path := stream_results_swiss_path tournament_id,
    params := Option.some [("nb", PyVal.ofInt limit)], stream := true }

/-- Embeds `Tournaments.stream_by_creator`: streaming GET, no params. -/
def stream_by_creator_req (username : String) : Request :=
  { verb := Verb.get, path := stream_by_creator_path username, stream := true }

/-- Embeds `Tournaments.terminate_arena`: bare POST. -/
def terminate_arena_req (tournament_id : String) : Request :=
  { verb := Verb.post, path := terminate_arena_path tournament_id }

/-- Embeds `Tournaments.terminate_swiss`: bare POST. -/
def terminate_swiss_req (tournament_id : String) : Request :=
  { verb := Verb.post, path := terminate_swiss_path tournament_id }

/-- The `payload` dict of `Tournaments.update_arena`, in source order.  The
arguments `rated`, `berserkable`, `streakable` and `has_chat` are plain
`bool`s defaulting to `True` in the source, so they always appear with a
boolean value; `initial_clock_time_minutes` is a `float`. -/
def update_arena_payload (initial_clock_time_minutes : Rat)
    (increment_clock_time_seconds duration_minutes : Int)
    (name : Option String) (wait_minutes start_timestamp_milliseconds : Option Int)
    (variant : Option String) (rated : Bool) (position : Option String)
    (berserkable streakable has_chat : Bool)
    (description password : Option String)
    (min_rating max_rating min_rated_games_count : Option Int)
    (allowed_usernames : Option String) : Params :=
  [("name", PyVal.ofStr name),
   ("clockTime", PyVal.float initial_clock_time_minutes),
   ("clockIncrement", PyVal.int increment_clock_time_seconds),
   ("minutes", PyVal.int duration_minutes),
   ("waitMinutes", PyVal.ofInt wait_minutes),
   ("startDate", PyVal.ofInt start_timestamp_milliseconds),
   ("variant", PyVal.ofStr variant),
   ("rated", PyVal.bool rated),
   ("position", PyVal.ofStr position),
   ("berserkable", PyVal.bool berserkable),
   ("streakable", PyVal.bool streakable),
   ("hasChat", PyVal.bool has_chat),
   ("description", PyVal.ofStr description),
   ("password", PyVal.ofStr password),
   ("conditions.minRating.rating", PyVal.ofInt min_rating),
   ("conditions.maxRating.rating", PyVal.ofInt max_rating),
   ("conditions.nbRatedGame.nb", PyVal.ofInt min_rated_games_count),
   ("conditions.allowList", PyVal.ofStr allowed_usernames)]

/-- Embeds `Tournaments.update_arena`: POST with `json=` body. -/
def update_arena_req (tournament_id : String) (initial_clock_time_minutes : Rat)
    (increment_clock_time_seconds duration_minutes : Int)
    (name : Option String) (wait_minutes start_timestamp_milliseconds : Option Int)
    (variant : Option String) (rated : Bool) (position : Option String)
    (berserkable streakable has_chat : Bool)
    (description password : Option String)
    (min_rating max_rating min_rated_games_count : Option Int)
    (allowed_usernames : Option String) : Request :=
  { verb := Verb.post, path := update_arena_path tournament_id,
    jsonBody := Option.some (update_arena_payload initial_clock_time_minutes
      increment_clock_time_seconds duration_minutes name wait_minutes
      start_timestamp_milliseconds variant rated position berserkable streakable
      has_chat description password min_rating max_rating min_rated_games_count
      allowed_usernames),
    converter := Option.some Converter.tournamentConvert }

/-- The `payload` dict of `Tournaments.update_swiss`, in source order.  The
argument `rated` is a plain `bool` defaulting to `True` in the source. -/
def update_swiss_payload (initial_clock_time_minutes : Rat)
    (increment_clock_time_seconds max_rounds : Int)
    (name : Option String) (start_timestamp_milliseconds round_interval : Option Int)
    (variant description : Option String) (rated : Bool)
    (password forbidden_pairings manual_pairings : Option String)
    (chat_read_write_permissions : Option Int)
    (min_rating max_rating min_rated_games_count : Option Int)
    (allowed_usernames : Option String) : Params :=
  [("name", PyVal.ofStr name),
   ("clock.limit", PyVal.float initial_clock_time_minutes),
   ("clock.increment", PyVal.int increment_clock_time_seconds),
   ("nbRounds", PyVal.int max_rounds),
   ("startDate", PyVal.ofInt start_timestamp_milliseconds),
   ("roundInterval", PyVal.ofInt round_interval),
   ("variant", PyVal.ofStr variant),
   ("description", PyVal.ofStr description),
   ("rated", PyVal.bool rated),
   ("password", PyVal.ofStr password),
   ("forbiddenPairings", PyVal.ofStr forbidden_pairings),
   ("manualPairings", PyVal.ofStr manual_pairings),
   ("chatFor", PyVal.ofInt chat_read_write_permissions),
   ("conditions.minRating.rating", PyVal.ofInt min_rating),
   ("conditions.maxRating.rating", PyVal.ofInt max_rating),
   ("conditions.nbRatedGame.nb", PyVal.ofInt min_rated_games_count),
   ("conditions.allowList", PyVal.ofStr allowed_usernames)]

/-- Embeds `Tournaments.update_swiss`: POST with `json=` body. -/
def update_swiss_req (tournament_id : String) (initial_clock_time_minutes : Rat)
    (increment_clock_time_seconds max_rounds : Int)
    (name : Option String) (start_timestamp_milliseconds round_interval : Option Int)
    (variant description : Option String) (rated : Bool)
    (password forbidden_pairings manual_pairings : Option String)
    (chat_read_write_permissions : Option Int)
    (min_rating max_rating min_rated_games_count : Option Int)
    (allowed_usernames : Option String) : Request :=
  { verb := Verb.post, path := update_swiss_path tournament_id,
    jsonBody := Option.some (update_swiss_payload initial_clock_time_minutes
      increment_clock_time_seconds max_rounds name start_timestamp_milliseconds
      round_interval variant description rated password forbidden_pairings
      manual_pairings chat_read_write_permissions min_rating max_rating
      min_rated_games_count allowed_usernames),
    converter := Option.some Converter.tournamentConvert }

/-- Embeds `Tournaments.withdraw_arena`: bare POST. -/
def withdraw_arena_req (tournament_id : String) : Request :=
  { verb := Verb.post, path := withdraw_arena_path tournament_id }

/-- Embeds `Tournaments.withdraw_swiss`: bare POST. -/
def withdraw_swiss_req (tournament_id : String) : Request :=
  { verb := Verb.post, path := withdraw_swiss_path tournament_id }

/-! Section: executing non-streaming methods against an abstract transport.

The transport collaborator `self._r` is abstract: a function from the issued
`Request` to an `Except`-result (`ε` a raised exception, `ρ` the decoded —
possibly converter-processed — response).  `run1` models issuing exactly one
request and returning the transport's result; the method bodies contain no
`try`/`except`, no retry and no translation, so the result passes through
unchanged.  Each `*_run` returns the list of requests issued together with
the method's return value. -/

def run1 {ε ρ : Type} (t : Request → Except ε ρ) (req : Request) :
    List Request × Except ε ρ :=
  ([req], t req)

/-- Issue one request and discard the decoded response, as a Python method
with no `return` statement does (it returns `None`); a raised exception still
propagates. -/
def run1_discard {ε ρ : Type} (t : Request → Except ε ρ) (req : Request) :
    List Request × Except ε Unit :=
  ([req], (t req).map fun _ => ())

def get_run {ε ρ : Type} (t : Request → Except ε ρ) : List Request × Except ε ρ :=
  run1 t get_req

def get_tournament_arena_run {ε ρ : Type} (t : Request → Except ε ρ)
    (tournament_id : String) (page : Int) : List Request × Except ε ρ :=
  run1 t (get_tournament_arena_req tournament_id page)

def get_tournament_swiss_run {ε ρ : Type} (t : Request → Except ε ρ)
    (tournament_id : String) : List Request × Except ε ρ :=
  run1 t (get_tournament_swiss_req tournament_id)

/-- Embeds `join_arena`: it posts and does not return the result: `self._r.post(...)`
on its own line, so the converter's product is discarded. -/
def join_arena_run {ε ρ : Type} (t : Request → Except ε ρ)
    (tournament_id : String) (password team : Option String)
    (should_pair_immediately : Bool) : List Request × Except ε Unit :=
  run1_discard t (join_arena_req tournament_id password team should_pair_immediately)

/-- Embeds `join_swiss`: it returns the transport's decoded result. -/
def join_swiss_run {ε ρ : Type} (t : Request → Except ε ρ)
    (tournament_id : String) (password : Option String) :
    List Request × Except ε ρ :=
  run1 t (join_swiss_req tournament_id password)

def get_team_standings_run {ε ρ : Type} (t : Request → Except ε ρ)
    (tournament_id : String) : List Request × Except ε ρ :=
  run1 t (get_team_standings_req tournament_id)

def update_team_battle_run {ε ρ : Type} (t : Request → Except ε ρ)
    (tournament_id : String) (team_ids : Option String)
    (team_leader_count_per_team : Option Int) : List Request × Except ε ρ :=
  run1 t (update_team_battle_req tournament_id team_ids team_leader_count_per_team)

def create_arena_run {ε ρ : Type} (t : Request → Except ε ρ)
    (clockTime clockIncrement minutes : Int)
    (name : Option String) (wait_minutes startDate : Option Int)
    (variant : Option String) (rated : Option Bool) (position : Option String)
    (berserkable streakable hasChat : Option Bool)
    (description password teamBattleByTeam teamId : Option String)
    (minRating maxRating nbRatedGame : Option Int) : List Request × Except ε ρ :=
  run1 t (create_arena_req clockTime clockIncrement minutes name wait_minutes
    startDate variant rated position berserkable streakable hasChat description
    password teamBattleByTeam teamId minRating maxRating nbRatedGame)

def create_swiss_run {ε ρ : Type} (t : Request → Except ε ρ)
    (teamId : String) (clockLimit clockIncrement nbRounds : Int)
    (name : Option String) (startsAt roundInterval : Option Int)
    (variant description : Option String) (rated : Option Bool)
    (chatFor : Option Int) : List Request × Except ε ρ :=
  run1 t (create_swiss_req teamId clockLimit clockIncrement nbRounds name
    startsAt roundInterval variant description rated chatFor)

def export_trf_run {ε ρ : Type} (t : Request → Except ε ρ)
    (tournament_id : String) : List Request × Except ε ρ :=
  run1 t (export_trf_req tournament_id)

def tournaments_by_user_run {ε ρ : Type} (t : Request → Except ε ρ)
    (username : String) (nb : Option Int) : List Request × Except ε ρ :=
  run1 t (tournaments_by_user_req username nb)

def arenas_by_team_run {ε ρ : Type} (t : Request → Except ε ρ)
    (teamId : String) (maxT : Option Int) : List Request × Except ε ρ :=
  run1 t (arenas_by_team_req teamId maxT)

def swiss_by_team_run {ε ρ : Type} (t : Request → Except ε ρ)
    (teamId : String) (maxT : Option Int) : List Request × Except ε ρ :=
  run1 t (swiss_by_team_req teamId maxT)

def schedule_next_round_run {ε ρ : Type} (t : Request → Except ε ρ)
    (tournament_id : String) (start_timestamp_milliseconds : Int) :
    List Request × Except ε ρ :=
  run1 t (schedule_next_round_req tournament_id start_timestamp_milliseconds)

def terminate_arena_run {ε ρ : Type} (t : Request → Except ε ρ)
    (tournament_id : String) : List Request × Except ε Unit :=
  run1_discard t (terminate_arena_req tournament_id)

def terminate_swiss_run {ε ρ : Type} (t : Request → Except ε ρ)
    (tournament_id : String) : List Request × Except ε Unit :=
  run1_discard t (terminate_swiss_req tournament_id)

def update_arena_run {ε ρ : Type} (t : Request → Except ε ρ)
    (tournament_id : String) (initial_clock_time_minutes : Rat)
    (increment_clock_time_seconds duration_minutes : Int)
    (name : Option String) (wait_minutes start_timestamp_milliseconds : Option Int)
    (variant : Option String) (rated : Bool) (position : Option String)
    (berserkable streakable has_chat : Bool)
    (description password : Option String)
    (min_rating max_rating min_rated_games_count : Option Int)
    (allowed_usernames : Option String) : List Request × Except ε ρ :=
  run1 t (update_arena_req tournament_id initial_clock_time_minutes
    increment_clock_time_seconds duration_minutes name wait_minutes
    start_timestamp_milliseconds variant rated position berserkable streakable
    has_chat description password min_rating max_rating min_rated_games_count
    allowed_usernames)

def update_swiss_run {ε ρ : Type} (t : Request → Except ε ρ)
    (tournament_id : String) (initial_clock_time_minutes : Rat)
    (increment_clock_time_seconds max_rounds : Int)
    (name : Option String) (start_timestamp_milliseconds round_interval : Option Int)
    (variant description : Option String) (rated : Bool)
    (password forbidden_pairings manual_pairings : Option String)
    (chat_read_write_permissions : Option Int)
    (min_rating max_rating min_rated_games_count : Option Int)
    (allowed_usernames : Option String) : List Request × Except ε ρ :=
  run1 t (update_swiss_req tournament_id initial_clock_time_minutes
    increment_clock_time_seconds max_rounds name start_timestamp_milliseconds
    round_interval variant description rated password forbidden_pairings
    manual_pairings chat_read_write_permissions min_rating max_rating
    min_rated_games_count allowed_usernames)

def withdraw_arena_run {ε ρ : Type} (t : Request → Except ε ρ)
    (tournament_id : String) : List Request × Except ε Unit :=
  run1_discard t (withdraw_arena_req tournament_id)

def withdraw_swiss_run {ε ρ : Type} (t : Request → Except ε ρ)
    (tournament_id : String) : List Request × Except ε Unit :=
  run1_discard t (withdraw_swiss_req tournament_id)

/-! Section: generator semantics for the streaming methods.

The five streaming methods (`export_arena_games`, `export_swiss_games`,
`stream_results_arena`, `stream_results_swiss`, `stream_by_creator`) are
Python generator functions: their bodies are a single
`yield from self._r.get(..., stream=True)`.  Calling a generator function
executes none of its body; the body runs (and hence the request is issued)
when the first element is demanded.  We model a generator as a `GenState`:
`unstarted req` is the suspended body that will issue `req` on the first
pull; `running items idx` is a generator delegating to the transport's item
stream (`items : Nat → Option α`, `Option.none` marking exhaustion) having
already produced the items before `idx`; `failed` is a generator that raised
(a generator that raised is exhausted thereafter). -/

inductive GenState (ε α : Type) where
  | unstarted (req : Request)
  | running (items : Nat → Option α) (idx : Nat)
  | failed

/-- One step of the generator protocol (one `next()` call): on the first pull
of a suspended generator the request is issued (it is recorded in the returned
request log) and either the transport's error propagates or the first item is
produced; later pulls read the next item without further transport calls.
The result is `Except.error e` when the transport raised, otherwise
`Except.ok (Option.some a)` for a produced item or `Except.ok Option.none`
for exhaustion. -/
def pull {ε α : Type} (t : Request → Except ε (Nat → Option α)) :
    GenState ε α → GenState ε α × List Request × Except ε (Option α)
  | GenState.unstarted req =>
    match t req with
    | Except.error e => (GenState.failed, [req], Except.error e)
    | Except.ok items => (GenState.running items 1, [req], Except.ok (items 0))
  | GenState.running items idx =>
    (GenState.running items (idx + 1), [], Except.ok (items idx))
  | GenState.failed => (GenState.failed, [], Except.ok Option.none)

/-- Pull `k` items in sequence, accumulating the request log and the list of
pull results. -/
def consume {ε α : Type} (t : Request → Except ε (Nat → Option α)) :
    Nat → GenState ε α → GenState ε α × List Request × List (Except ε (Option α))
  | 0, s => (s, [], [])
  | Nat.succ k, s =>
    let step := pull t s
    let rest := consume t k step.1
    (rest.1, step.2.1 ++ rest.2.1, step.2.2 :: rest.2.2)

/-- A transport raising on every call. -/
def errT {ε ρ : Type} (e : ε) : Request → Except ε ρ := fun _ => Except.error e

/-- A transport answering every call with the same result. -/
def constT {ε ρ : Type} (r : ρ) : Request → Except ε ρ := fun _ => Except.ok r

/-- A streaming transport answering every call with the item stream `items`. -/
def streamT {ε α : Type} (items : Nat → Option α) :
    Request → Except ε (Nat → Option α) :=
  fun _ => Except.ok items

/-- Calling a streaming method builds a suspended generator around the
request the body will issue; nothing is executed yet. -/
def genCall {ε α : Type} (req : Request) : GenState ε α :=
  GenState.unstarted req

def export_arena_games_call {ε α : Type} (pgn_as_default : Bool) (tid : String)
    (as_pgn : Option Bool) (moves tags clocks evals opening : Bool) :
    GenState ε α :=
  genCall (export_arena_games_req pgn_as_default tid as_pgn moves tags clocks
    evals opening)

def export_swiss_games_call {ε α : Type} (pgn_as_default : Bool) (tid : String)
    (as_pgn : Option Bool) (moves pgnInJson tags clocks evals opening : Bool) :
    GenState ε α :=
  genCall (export_swiss_games_req pgn_as_default tid as_pgn moves pgnInJson tags
    clocks evals opening)

def stream_results_arena_call {ε α : Type} (tournament_id : String)
    (limit : Option Int) : GenState ε α :=
  genCall (stream_results_arena_req tournament_id limit)

def stream_results_swiss_call {ε α : Type} (tournament_id : String)
    (limit : Option Int) : GenState ε α :=
  genCall (stream_results_swiss_req tournament_id limit)

def stream_by_creator_call {ε α : Type} (username : String) : GenState ε α :=
  genCall (stream_by_creator_req username)

/-- Predicate: `needle` occurs verbatim inside `haystack`, i.e. some prefix
and suffix concatenate around it unchanged. -/
def OccursIn (needle haystack : String) : Prop :=
  ∃ pre suf, haystack = pre ++ needle ++ suf

/-! Section: theorems. -/

theorem occursIn_concat (pre suf needle : String) :
    OccursIn needle (pre ++ needle ++ suf) :=
  ⟨pre, suf, rfl⟩

theorem occursIn_append_right (pre needle : String) :
    OccursIn needle (pre ++ needle) :=
  ⟨pre, "", by rw [String.append_empty]⟩

/-- Pulling `k` items from a generator already delegating to the transport's
item stream issues no further requests and returns the next `k` stream
items. -/
theorem consume_running {ε α : Type} (t : Request → Except ε (Nat → Option α))
    (items : Nat → Option α) (k : Nat) : ∀ idx,
    consume t k (GenState.running items idx) =
      (GenState.running items (idx + k), [],
        (List.range k).map fun i => Except.ok (items (idx + i))) := by
  induction k with
  | zero => intro idx; simp [consume]
  | succ k ih =>
    intro idx
    have h2 : ∀ i : Nat, idx + 1 + i = idx + (i + 1) := fun i => by omega
    simp [consume, pull, ih (idx + 1), List.range_succ_eq_map, List.map_map,
      Function.comp, h2, Nat.add_comm, Nat.add_left_comm]

/-- Consuming `k + 1` items from a freshly called streaming method issues the
single underlying request and returns exactly the first `k + 1` items of the
transport's stream: the outputs are determined by the stream's values at the
indices below `k + 1` alone, so the remaining items are never forced. -/
theorem consume_unstarted_ok {ε α : Type} (items : Nat → Option α)
    (req : Request) (k : Nat) :
    consume (streamT items) (k + 1) (GenState.unstarted req : GenState ε α) =
      (GenState.running items (k + 1), [req],
        (List.range (k + 1)).map fun i => Except.ok (items i)) := by
  have h2 : ∀ i : Nat, 1 + i = i + 1 := fun i => by omega
  simp [consume, pull, streamT, consume_running, List.range_succ_eq_map,
    List.map_map, Function.comp, h2, Nat.add_comm]

/-- Claim C1 as stated is false on the code: in `join_arena` the optional
argument `should_pair_immediately` left unset by the caller (its Python
default is `False`) is carried in the constructed params as the explicit
value `False` under key `pairMeAsap` — neither omitted nor null. -/
theorem c1_counterexample :
    ¬(List.lookup "pairMeAsap" (join_arena_params Option.none Option.none false) =
        Option.none ∨
      List.lookup "pairMeAsap" (join_arena_params Option.none Option.none false) =
        Option.some PyVal.none) := by decide

/-- Claim C1 amended: with every optional argument left unset, all
`None`-defaulted optionals of the create/update/join methods are carried as
null (`None`) in the constructed payload — never coerced to a
false/zero/empty-string value — but the non-`None`-defaulted arguments are
always sent at their defaults: `join_arena` sends `pairMeAsap=False`, and
`update_arena` / `update_swiss` send `rated`, `berserkable`, `streakable`,
`hasChat` (respectively `rated`) as `True`. -/
theorem c1_unset_optionals (ct ci mins cl cinc nr ics dm ics2 mr : Int)
    (q q2 : Rat) :
    (["name", "waitMinutes", "startDate", "variant", "rated", "position",
      "berserkable", "streakable", "hasChat", "description", "password",
      "teamBattleByTeam", "conditions.teamMember.teamId",
      "conditions.minRating.rating", "conditions.maxRating.rating",
      "conditions.nbRatedGame.nb"].all fun k =>
        List.lookup k (create_arena_payload ct ci mins Option.none Option.none
          Option.none Option.none Option.none Option.none Option.none
          Option.none Option.none Option.none Option.none Option.none
          Option.none Option.none Option.none Option.none) ==
          Option.some PyVal.none) = true ∧
    (["name", "startsAt", "roundInterval", "variant", "description", "rated",
      "chatFor"].all fun k =>
        List.lookup k (create_swiss_payload cl cinc nr Option.none Option.none
          Option.none Option.none Option.none Option.none Option.none) ==
          Option.some PyVal.none) = true ∧
    (["teams", "nbLeaders"].all fun k =>
        List.lookup k (update_team_battle_params Option.none Option.none) ==
          Option.some PyVal.none) = true ∧
    List.lookup "password" (join_swiss_payload Option.none) =
      Option.some PyVal.none ∧
    (["password", "team"].all fun k =>
        List.lookup k (join_arena_params Option.none Option.none false) ==
          Option.some PyVal.none) = true ∧
    List.lookup "pairMeAsap" (join_arena_params Option.none Option.none false) =
      Option.some (PyVal.bool false) ∧
    (["name", "waitMinutes", "startDate", "variant", "position", "description",
      "password", "conditions.minRating.rating", "conditions.maxRating.rating",
      "conditions.nbRatedGame.nb", "conditions.allowList"].all fun k =>
        List.lookup k (update_arena_payload q ics dm Option.none Option.none
          Option.none Option.none true Option.none true true true Option.none
          Option.none Option.none Option.none Option.none Option.none) ==
          Option.some PyVal.none) = true ∧
    (["rated", "berserkable", "streakable", "hasChat"].all fun k =>
        List.lookup k (update_arena_payload q ics dm Option.none Option.none
          Option.none Option.none true Option.none true true true Option.none
          Option.none Option.none Option.none Option.none Option.none) ==
          Option.some (PyVal.bool true)) = true ∧
    (["name", "startDate", "roundInterval", "variant", "description",
      "password", "forbiddenPairings", "manualPairings", "chatFor",
      "conditions.minRating.rating", "conditions.maxRating.rating",
      "conditions.nbRatedGame.nb", "conditions.allowList"].all fun k =>
        List.lookup k (update_swiss_payload q2 ics2 mr Option.none Option.none
          Option.none Option.none Option.none true Option.none Option.none
          Option.none Option.none Option.none Option.none Option.none
          Option.none) == Option.some PyVal.none) = true ∧
    List.lookup "rated" (update_swiss_payload q2 ics2 mr Option.none
      Option.none Option.none Option.none Option.none true Option.none
      Option.none Option.none Option.none Option.none Option.none Option.none
      Option.none) = Option.some (PyVal.bool true) :=
  ⟨rfl, rfl, rfl, rfl, rfl, rfl, rfl, rfl, rfl, rfl⟩

/-- Claim C2: calling `create_swiss` with `teamId="T"`, `clockLimit=300`,
`clockIncrement=2`, `nbRounds=7` (all other arguments unset) issues a POST
against `/api/swiss/new/T` with a JSON body whose payload maps `clock.limit`
to `300`, `clock.increment` to `2` and `nbRounds` to `7`. -/
theorem c2_create_swiss_request :
    (create_swiss_req "T" 300 2 7 Option.none Option.none Option.none
        Option.none Option.none Option.none Option.none).verb = Verb.post ∧
    (create_swiss_req "T" 300 2 7 Option.none Option.none Option.none
        Option.none Option.none Option.none Option.none).path =
      "/api/swiss/new/T" ∧
    (create_swiss_req "T" 300 2 7 Option.none Option.none Option.none
        Option.none Option.none Option.none Option.none).jsonBody.isSome = true ∧
    List.lookup "clock.limit" ((create_swiss_req "T" 300 2 7 Option.none
        Option.none Option.none Option.none Option.none Option.none
        Option.none).jsonBody.getD []) = Option.some (PyVal.int 300) ∧
    List.lookup "clock.increment" ((create_swiss_req "T" 300 2 7 Option.none
        Option.none Option.none Option.none Option.none Option.none
        Option.none).jsonBody.getD []) = Option.some (PyVal.int 2) ∧
    List.lookup "nbRounds" ((create_swiss_req "T" 300 2 7 Option.none
        Option.none Option.none Option.none Option.none Option.none
        Option.none).jsonBody.getD []) = Option.some (PyVal.int 7) := by
  decide

/-- Claim C3: `export_arena_games` with `as_pgn=True` issues its streaming
GET in PGN format and yields raw text (no converter is installed); with
`as_pgn=False`, and with `as_pgn` omitted on a default-configured client
(client-wide default JSON, `pgn_as_default = false`, modelled from the
spec), it issues the request in NDJSON mode with the `models.Game.convert`
converter, yielding decoded game records. -/
theorem c3_export_arena_format (d : Bool) (tid : String)
    (m tg ck ev opn : Bool) :
    (export_arena_games_req d tid (Option.some true) m tg ck ev opn).fmt =
      Fmt.pgn ∧
    (export_arena_games_req d tid (Option.some true) m tg ck ev opn).converter =
      Option.none ∧
    (export_arena_games_req d tid (Option.some true) m tg ck ev opn).stream =
      true ∧
    (export_arena_games_req d tid (Option.some true) m tg ck ev opn).verb =
      Verb.get ∧
    (export_arena_games_req d tid (Option.some false) m tg ck ev opn).fmt =
      Fmt.ndjson ∧
    (export_arena_games_req d tid (Option.some false) m tg ck ev opn).converter =
      Option.some Converter.gameConvert ∧
    (export_arena_games_req d tid (Option.some false) m tg ck ev opn).stream =
      true ∧
    (export_arena_games_req false tid Option.none m tg ck ev opn).fmt =
      Fmt.ndjson ∧
    (export_arena_games_req false tid Option.none m tg ck ev opn).converter =
      Option.some Converter.gameConvert ∧
    (export_arena_games_req false tid Option.none m tg ck ev opn).stream =
      true :=
  ⟨rfl, rfl, rfl, rfl, rfl, rfl, rfl, rfl, rfl, rfl⟩

/-- Claim C4 is right about the code's intent and wrong about the code:
`export_arena_games` carries the include-flags under `moves`, `tags`,
`clocks`, `evals`, `opening`, each bound to its argument, but
`export_swiss_games` (source line 310) spells its first key `"moves:"` with
a stray colon, so its constructed params carry no `moves` key at all —
contradicting the method's own docstring (`:param moves: include moves`) and
the server field name.  The remaining swiss keys are correct. -/
theorem c4_swiss_moves_key_bug (m pj tg ck ev opn : Bool) :
    List.lookup "moves" (export_arena_games_params m tg ck ev opn) =
      Option.some (PyVal.bool m) ∧
    List.lookup "tags" (export_arena_games_params m tg ck ev opn) =
      Option.some (PyVal.bool tg) ∧
    List.lookup "clocks" (export_arena_games_params m tg ck ev opn) =
      Option.some (PyVal.bool ck) ∧
    List.lookup "evals" (export_arena_games_params m tg ck ev opn) =
      Option.some (PyVal.bool ev) ∧
    List.lookup "opening" (export_arena_games_params m tg ck ev opn) =
      Option.some (PyVal.bool opn) ∧
    List.lookup "moves" (export_swiss_games_params m pj tg ck ev opn) =
      Option.none ∧
    List.lookup "moves:" (export_swiss_games_params m pj tg ck ev opn) =
      Option.some (PyVal.bool m) ∧
    List.lookup "pgnInJson" (export_swiss_games_params m pj tg ck ev opn) =
      Option.some (PyVal.bool pj) ∧
    List.lookup "tags" (export_swiss_games_params m pj tg ck ev opn) =
      Option.some (PyVal.bool tg) ∧
    List.lookup "clocks" (export_swiss_games_params m pj tg ck ev opn) =
      Option.some (PyVal.bool ck) ∧
    List.lookup "evals" (export_swiss_games_params m pj tg ck ev opn) =
      Option.some (PyVal.bool ev) ∧
    List.lookup "opening" (export_swiss_games_params m pj tg ck ev opn) =
      Option.some (PyVal.bool opn) :=
  ⟨rfl, rfl, rfl, rfl, rfl, rfl, rfl, rfl, rfl, rfl, rfl, rfl⟩

/-- Claim C5: `get_team_standings("abc123")` issues exactly one GET, to
`/api/tournament/abc123/teams`, with no params, no body, no format handler,
no converter and no streaming, and returns the transport's decoded response
unmodified. -/
theorem c5_get_team_standings {ε ρ : Type} (t : Request → Except ε ρ) :
    get_team_standings_run t "abc123" =
      ([get_team_standings_req "abc123"],
        t (get_team_standings_req "abc123")) ∧
    get_team_standings_req "abc123" =
      { verb := Verb.get, path := "/api/tournament/abc123/teams" } :=
  ⟨rfl, by decide⟩

/-- Claim C10: `join_arena` discards the decoded response its converter
produces and returns `None` (its result does not depend on the transport's
response at all), while `join_swiss` returns the decoded tournament produced
by the transport for the same kind of join request; both pass
`models.Tournament.convert`. -/
theorem c10_join_return_values {ε ρ : Type} (r r1 r2 : ρ) (tid : String)
    (pw team : Option String) (b : Bool) :
    (join_arena_run (constT r : Request → Except ε ρ) tid pw team b).2 =
      Except.ok () ∧
    (join_arena_run (constT r1 : Request → Except ε ρ) tid pw team b).2 =
      (join_arena_run (constT r2 : Request → Except ε ρ) tid pw team b).2 ∧
    (join_swiss_run (constT r : Request → Except ε ρ) tid pw).2 =
      Except.ok r ∧
    (join_arena_req tid pw team b).converter =
      Option.some Converter.tournamentConvert ∧
    (join_swiss_req tid pw).converter =
      Option.some Converter.tournamentConvert :=
  ⟨rfl, rfl, rfl, rfl, rfl⟩

/-- Claim C6: every method of the `Tournaments` client that takes an
identifier (tournament id, team id, or username) interpolates it verbatim —
no re-encoding — into the path at the position fixed by that endpoint's URL
template: the constructed path equals the template's prefix, the identifier
unchanged, and the template's suffix, and hence the identifier occurs
verbatim as a substring of the path. -/
theorem c6_identifier_verbatim (tid teamId username : String) (page : Int) :
    (get_tournament_arena_path tid page =
        "/api/tournament/" ++ tid ++ "?page=" ++ toString page ∧
      OccursIn tid (get_tournament_arena_path tid page)) ∧
    (get_tournament_swiss_path tid = "/api/swiss/" ++ tid ∧
      OccursIn tid (get_tournament_swiss_path tid)) ∧
    (join_arena_path tid = "/api/tournament/" ++ tid ++ "/join" ∧
      OccursIn tid (join_arena_path tid)) ∧
    (join_swiss_path tid = "/api/swiss/" ++ tid ++ "/join" ∧
      OccursIn tid (join_swiss_path tid)) ∧
    (get_team_standings_path tid = "/api/tournament/" ++ tid ++ "/teams" ∧
      OccursIn tid (get_team_standings_path tid)) ∧
    (update_team_battle_path tid = "/api/tournament/team-battle/" ++ tid ∧
      OccursIn tid (update_team_battle_path tid)) ∧
    (create_swiss_path teamId = "/api/swiss/new/" ++ teamId ∧
      OccursIn teamId (create_swiss_path teamId)) ∧
    (export_arena_games_path tid = "/api/tournament/" ++ tid ++ "/games" ∧
      OccursIn tid (export_arena_games_path tid)) ∧
    (export_swiss_games_path tid = "/api/swiss/" ++ tid ++ "/games" ∧
      OccursIn tid (export_swiss_games_path tid)) ∧
    (export_trf_path tid = "/swiss/" ++ tid ++ "/.trf" ∧
      OccursIn tid (export_trf_path tid)) ∧
    (tournaments_by_user_path username =
        "/api/user/" ++ username ++ "/tournament/created" ∧
      OccursIn username (tournaments_by_user_path username)) ∧
    (arenas_by_team_path teamId = "/api/team/" ++ teamId ++ "/arena" ∧
      OccursIn teamId (arenas_by_team_path teamId)) ∧
    (swiss_by_team_path teamId = "/api/team/" ++ teamId ++ "/swiss" ∧
      OccursIn teamId (swiss_by_team_path teamId)) ∧
    (schedule_next_round_path tid =
        "/api/swiss/" ++ tid ++ "/schedule-next-round" ∧
      OccursIn tid (schedule_next_round_path tid)) ∧
    (stream_results_arena_path tid = "/api/tournament/" ++ tid ++ "/results" ∧
      OccursIn tid (stream_results_arena_path tid)) ∧
    (stream_results_swiss_path tid = "/api/swiss/" ++ tid ++ "/results" ∧
      OccursIn tid (stream_results_swiss_path tid)) ∧
    (stream_by_creator_path username =
        "/api/user/" ++ username ++ "/tournament/created" ∧
      OccursIn username (stream_by_creator_path username)) ∧
    (terminate_arena_path tid = "/api/tournament/" ++ tid ++ "/terminate" ∧
      OccursIn tid (terminate_arena_path tid)) ∧
    (terminate_swiss_path tid = "/api/swiss/" ++ tid ++ "/terminate" ∧
      OccursIn tid (terminate_swiss_path tid)) ∧
    (update_arena_path tid = "/api/tournament/" ++ tid ∧
      OccursIn tid (update_arena_path tid)) ∧
    (update_swiss_path tid = "/api/swiss/" ++ tid ++ "/edit" ∧
      OccursIn tid (update_swiss_path tid)) ∧
    (withdraw_arena_path tid = "/api/tournament/" ++ tid ++ "/withdraw" ∧
      OccursIn tid (withdraw_arena_path tid)) ∧
    (withdraw_swiss_path tid = "/api/swiss/" ++ tid ++ "/withdraw" ∧
      OccursIn tid (withdraw_swiss_path tid)) :=
  ⟨⟨rfl, ⟨"/api/tournament/", "?page=" ++ toString page,
      String.append_assoc _ _ _⟩⟩,
    ⟨rfl, occursIn_append_right _ _⟩,
    ⟨rfl, occursIn_concat _ _ _⟩,
    ⟨rfl, occursIn_concat _ _ _⟩,
    ⟨rfl, occursIn_concat _ _ _⟩,
    ⟨rfl, occursIn_append_right _ _⟩,
    ⟨rfl, occursIn_append_right _ _⟩,
    ⟨rfl, occursIn_concat _ _ _⟩,
    ⟨rfl, occursIn_concat _ _ _⟩,
    ⟨rfl, occursIn_concat _ _ _⟩,
    ⟨rfl, occursIn_concat _ _ _⟩,
    ⟨rfl, occursIn_concat _ _ _⟩,
    ⟨rfl, occursIn_concat _ _ _⟩,
    ⟨rfl, occursIn_concat _ _ _⟩,
    ⟨rfl, occursIn_concat _ _ _⟩,
    ⟨rfl, occursIn_concat _ _ _⟩,
    ⟨rfl, occursIn_concat _ _ _⟩,
    ⟨rfl, occursIn_concat _ _ _⟩,
    ⟨rfl, occursIn_concat _ _ _⟩,
    ⟨rfl, occursIn_append_right _ _⟩,
    ⟨rfl, occursIn_concat _ _ _⟩,
    ⟨rfl, occursIn_concat _ _ _⟩,
    ⟨rfl, occursIn_concat _ _ _⟩⟩

/-- Claim C7: every method of the `Tournaments` client surfaces a transport
failure unmodified — no method catches, retries or translates it.  Against a
transport raising `e` on every call, every non-streaming method issues its
single request and returns exactly `Except.error e`, and every streaming
method propagates `e` at the point of iteration: the first pull of its
generator issues the request, fails the generator, and produces exactly
`Except.error e`. -/
theorem c7_error_propagation {ε ρ α : Type} (e : ε)
    (tid teamId username : String) (page n1 n2 n3 : Int) (q : Rat)
    (os1 os2 os3 os4 os5 os6 os7 : Option String)
    (oi1 oi2 oi3 oi4 oi5 oi6 : Option Int)
    (ob1 ob2 ob3 ob4 : Option Bool) (op : Option Bool)
    (b1 b2 b3 b4 b5 : Bool) (m pj tg ck ev opn : Bool) :
    get_run (errT e : Request → Except ε ρ) = ([get_req], Except.error e) ∧
    get_tournament_arena_run (errT e : Request → Except ε ρ) tid page =
      ([get_tournament_arena_req tid page], Except.error e) ∧
    get_tournament_swiss_run (errT e : Request → Except ε ρ) tid =
      ([get_tournament_swiss_req tid], Except.error e) ∧
    join_arena_run (errT e : Request → Except ε ρ) tid os1 os2 b1 =
      ([join_arena_req tid os1 os2 b1], Except.error e) ∧
    join_swiss_run (errT e : Request → Except ε ρ) tid os1 =
      ([join_swiss_req tid os1], Except.error e) ∧
    get_team_standings_run (errT e : Request → Except ε ρ) tid =
      ([get_team_standings_req tid], Except.error e) ∧
    update_team_battle_run (errT e : Request → Except ε ρ) tid os1 oi1 =
      ([update_team_battle_req tid os1 oi1], Except.error e) ∧
    create_arena_run (errT e : Request → Except ε ρ) n1 n2 n3 os1 oi1 oi2 os2
        ob1 os3 ob2 ob3 ob4 os4 os5 os6 os7 oi3 oi4 oi5 =
      ([create_arena_req n1 n2 n3 os1 oi1 oi2 os2 ob1 os3 ob2 ob3 ob4 os4 os5
          os6 os7 oi3 oi4 oi5], Except.error e) ∧
    create_swiss_run (errT e : Request → Except ε ρ) teamId n1 n2 n3 os1 oi1
        oi2 os2 os3 ob1 oi3 =
      ([create_swiss_req teamId n1 n2 n3 os1 oi1 oi2 os2 os3 ob1 oi3],
        Except.error e) ∧
    export_trf_run (errT e : Request → Except ε ρ) tid =
      ([export_trf_req tid], Except.error e) ∧
    tournaments_by_user_run (errT e : Request → Except ε ρ) username oi1 =
      ([tournaments_by_user_req username oi1], Except.error e) ∧
    arenas_by_team_run (errT e : Request → Except ε ρ) teamId oi1 =
      ([arenas_by_team_req teamId oi1], Except.error e) ∧
    swiss_by_team_run (errT e : Request → Except ε ρ) teamId oi1 =
      ([swiss_by_team_req teamId oi1], Except.error e) ∧
    schedule_next_round_run (errT e : Request → Except ε ρ) tid n1 =
      ([schedule_next_round_req tid n1], Except.error e) ∧
    terminate_arena_run (errT e : Request → Except ε ρ) tid =
      ([terminate_arena_req tid], Except.error e) ∧
    terminate_swiss_run (errT e : Request → Except ε ρ) tid =
      ([terminate_swiss_req tid], Except.error e) ∧
    update_arena_run (errT e : Request → Except ε ρ) tid q n1 n2 os1 oi1 oi2
        os2 b1 os3 b2 b3 b4 os4 os5 oi3 oi4 oi5 os6 =
      ([update_arena_req tid q n1 n2 os1 oi1 oi2 os2 b1 os3 b2 b3 b4 os4 os5
          oi3 oi4 oi5 os6], Except.error e) ∧
    update_swiss_run (errT e : Request → Except ε ρ) tid q n1 n2 os1 oi1 oi2
        os2 os3 b1 os4 os5 os6 oi3 oi4 oi5 oi6 os7 =
      ([update_swiss_req tid q n1 n2 os1 oi1 oi2 os2 os3 b1 os4 os5 os6 oi3
          oi4 oi5 oi6 os7], Except.error e) ∧
    withdraw_arena_run (errT e : Request → Except ε ρ) tid =
      ([withdraw_arena_req tid], Except.error e) ∧
    withdraw_swiss_run (errT e : Request → Except ε ρ) tid =
      ([withdraw_swiss_req tid], Except.error e) ∧
    pull (errT e : Request → Except ε (Nat → Option α))
        (export_arena_games_call b5 tid op m tg ck ev opn) =
      (GenState.failed, [export_arena_games_req b5 tid op m tg ck ev opn],
        Except.error e) ∧
    pull (errT e : Request → Except ε (Nat → Option α))
        (export_swiss_games_call b5 tid op m pj tg ck ev opn) =
      (GenState.failed, [export_swiss_games_req b5 tid op m pj tg ck ev opn],
        Except.error e) ∧
    pull (errT e : Request → Except ε (Nat → Option α))
        (stream_results_arena_call tid oi1) =
      (GenState.failed, [stream_results_arena_req tid oi1], Except.error e) ∧
    pull (errT e : Request → Except ε (Nat → Option α))
        (stream_results_swiss_call tid oi1) =
      (GenState.failed, [stream_results_swiss_req tid oi1], Except.error e) ∧
    pull (errT e : Request → Except ε (Nat → Option α))
        (stream_by_creator_call username) =
      (GenState.failed, [stream_by_creator_req username], Except.error e) :=
  ⟨rfl, rfl, rfl, rfl, rfl, rfl, rfl, rfl, rfl, rfl, rfl, rfl, rfl, rfl, rfl,
    rfl, rfl, rfl, rfl, rfl, rfl, rfl, rfl, rfl, rfl⟩

/-- Claim C8: each of the five streaming methods yields lazily.  Under a
transport whose stream is `items`, consuming the first `k + 1` elements of
the returned generator issues the single underlying request and produces
exactly the items of `items` at the indices `0 … k` (`List.range (k + 1)`),
so only the consumed prefix of the transport's stream is ever retrieved and
the remaining items are never forced. -/
theorem c8_streaming_lazy {ε α : Type} (items : Nat → Option α) (k : Nat)
    (tid username : String) (oi1 : Option Int) (op : Option Bool)
    (b5 m pj tg ck ev opn : Bool) :
    consume (streamT items : Request → Except ε (Nat → Option α)) (k + 1)
        (export_arena_games_call b5 tid op m tg ck ev opn) =
      (GenState.running items (k + 1),
        [export_arena_games_req b5 tid op m tg ck ev opn],
        (List.range (k + 1)).map fun i => Except.ok (items i)) ∧
    consume (streamT items : Request → Except ε (Nat → Option α)) (k + 1)
        (export_swiss_games_call b5 tid op m pj tg ck ev opn) =
      (GenState.running items (k + 1),
        [export_swiss_games_req b5 tid op m pj tg ck ev opn],
        (List.range (k + 1)).map fun i => Except.ok (items i)) ∧
    consume (streamT items : Request → Except ε (Nat → Option α)) (k + 1)
        (stream_results_arena_call tid oi1) =
      (GenState.running items (k + 1), [stream_results_arena_req tid oi1],
        (List.range (k + 1)).map fun i => Except.ok (items i)) ∧
    consume (streamT items : Request → Except ε (Nat → Option α)) (k + 1)
        (stream_results_swiss_call tid oi1) =
      (GenState.running items (k + 1), [stream_results_swiss_req tid oi1],
        (List.range (k + 1)).map fun i => Except.ok (items i)) ∧
    consume (streamT items : Request → Except ε (Nat → Option α)) (k + 1)
        (stream_by_creator_call username) =
      (GenState.running items (k + 1), [stream_by_creator_req username],
        (List.range (k + 1)).map fun i => Except.ok (items i)) :=
  ⟨consume_unstarted_ok items _ k, consume_unstarted_ok items _ k,
    consume_unstarted_ok items _ k, consume_unstarted_ok items _ k,
    consume_unstarted_ok items _ k⟩

/-- Claim C9: calling any of the five streaming methods merely builds a
suspended generator around the request its body will issue — consuming zero
elements issues zero transport requests — and the request is issued only
when the first element is demanded: the first pull against a transport
raising `e` issues that one request and surfaces `e` there. -/
theorem c9_streaming_deferred {ε α : Type} (e : ε)
    (t : Request → Except ε (Nat → Option α))
    (tid username : String) (oi1 : Option Int) (op : Option Bool)
    (b5 m pj tg ck ev opn : Bool) :
    ((export_arena_games_call b5 tid op m tg ck ev opn : GenState ε α) =
        GenState.unstarted (export_arena_games_req b5 tid op m tg ck ev opn) ∧
      consume t 0 (export_arena_games_call b5 tid op m tg ck ev opn) =
        (export_arena_games_call b5 tid op m tg ck ev opn, [], []) ∧
      pull (errT e : Request → Except ε (Nat → Option α))
          (export_arena_games_call b5 tid op m tg ck ev opn) =
        (GenState.failed, [export_arena_games_req b5 tid op m tg ck ev opn],
          Except.error e)) ∧
    ((export_swiss_games_call b5 tid op m pj tg ck ev opn : GenState ε α) =
        GenState.unstarted (export_swiss_games_req b5 tid op m pj tg ck ev opn) ∧
      consume t 0 (export_swiss_games_call b5 tid op m pj tg ck ev opn) =
        (export_swiss_games_call b5 tid op m pj tg ck ev opn, [], []) ∧
      pull (errT e : Request → Except ε (Nat → Option α))
          (export_swiss_games_call b5 tid op m pj tg ck ev opn) =
        (GenState.failed, [export_swiss_games_req b5 tid op m pj tg ck ev opn],
          Except.error e)) ∧
    ((stream_results_arena_call tid oi1 : GenState ε α) =
        GenState.unstarted (stream_results_arena_req tid oi1) ∧
      consume t 0 (stream_results_arena_call tid oi1) =
        (stream_results_arena_call tid oi1, [], []) ∧
      pull (errT e : Request → Except ε (Nat → Option α))
          (stream_results_arena_call tid oi1) =
        (GenState.failed, [stream_results_arena_req tid oi1],
          Except.error e)) ∧
    ((stream_results_swiss_call tid oi1 : GenState ε α) =
        GenState.unstarted (stream_results_swiss_req tid oi1) ∧
      consume t 0 (stream_results_swiss_call tid oi1) =
        (stream_results_swiss_call tid oi1, [], []) ∧
      pull (errT e : Request → Except ε (Nat → Option α))
          (stream_results_swiss_call tid oi1) =
        (GenState.failed, [stream_results_swiss_req tid oi1],
          Except.error e)) ∧
    ((stream_by_creator_call username : GenState ε α) =
        GenState.unstarted (stream_by_creator_req username) ∧
      consume t 0 (stream_by_creator_call username) =
        (stream_by_creator_call username, [], []) ∧
      pull (errT e : Request → Except ε (Nat → Option α))
          (stream_by_creator_call username) =
        (GenState.failed, [stream_by_creator_req username],
          Except.error e)) :=
  ⟨⟨rfl, rfl, rfl⟩, ⟨rfl, rfl, rfl⟩, ⟨rfl, rfl, rfl⟩, ⟨rfl, rfl, rfl⟩,
    ⟨rfl, rfl, rfl⟩⟩

end Berserk
